import Mathlib

/-!
Shallow embedding of the Ultrahand-Overlay command interpreter core
(`src/source/utils.hpp`): the path-safety guard `isDangerousCombination`
and the dispatcher `interpretAndExecuteCommand`.

C++ `std::string` values are modelled as `List Char` (one `Char` per byte;
all data handled by the claims is ASCII, for which the two agree position
by position).
-/

namespace Ultrahand

/-- Byte strings of the C++ code, modelled one character per byte. -/
abbrev Str := List Char

/-- Substring containment, mirroring `haystack.find(pat) != std::string::npos`. -/
def containsSub (hay pat : Str) : Bool :=
  if pat.isPrefixOf hay then true
  else
    match hay with
    | [] => false
    | _ :: t => containsSub t pat

/-- Position of the first occurrence of `pat` in `hay`, mirroring
`haystack.find(pat)` (`none` plays the role of `std::string::npos`). -/
def findSub (hay pat : Str) : Option Nat :=
  if pat.isPrefixOf hay then some 0
  else
    match hay with
    | [] => none
    | _ :: t => (findSub t pat).map (· + 1)

/-- The manual segment-splitting loop of `isDangerousCombination`
(utils.hpp lines 227-239 and 268-281): accumulate characters, emit the
current segment at each `/` when non-empty, emit the trailing segment. -/
def splitSegAux : Str → Str → List Str
  | [], seg => if seg = [] then [] else [seg]
  | c :: rest, seg =>
    if c = '/' then
      if seg = [] then splitSegAux rest []
      else seg :: splitSegAux rest []
    else
      splitSegAux rest (seg ++ [c])

/-- Split a relative path into its non-empty `/`-separated segments. -/
def splitSegments (s : Str) : List Str := splitSegAux s []

/-- `protectedFolders` of utils.hpp lines 171-179. -/
def protectedFolders : List Str :=
  ["sdmc:/Nintendo/".data, "sdmc:/emuMMC/".data, "sdmc:/atmosphere/".data,
   "sdmc:/bootloader/".data, "sdmc:/switch/".data, "sdmc:/config/".data,
   "sdmc:/".data]

/-- `ultraProtectedFolders` of utils.hpp lines 180-183. -/
def ultraProtectedFolders : List Str :=
  ["sdmc:/Nintendo/".data, "sdmc:/emuMMC/".data]

/-- `dangerousCombinationPatterns` of utils.hpp lines 195-198. -/
def dangerousCombinationPatterns : List Str := ["*".data, "*/".data]

/-- `dangerousPatterns` of utils.hpp lines 201-204. -/
def dangerousPatterns : List Str := ["..".data, "~".data]

/-- `isDangerousCombination` of utils.hpp lines 193-309.  Every early
`return true` of the C++ function is one disjunct, in source order:
ultra-protected prefix; per protected folder (exact match, or prefix with
a dangerous pattern inside some segment of the remainder, or the folder
followed directly by a wildcard pattern); an `sdmc:/`-rooted path with a
segment equal to a dangerous pattern; a wildcard inside the volume root
(the part up to and including the first `:/`); and the catch-all
substring test for the dangerous patterns. -/
def isDangerousCombination (patternPath : Str) : Bool :=
  (ultraProtectedFolders.any fun f => f.isPrefixOf patternPath)
  || (protectedFolders.any fun f =>
        patternPath == f
        || (f.isPrefixOf patternPath
            && (splitSegments (patternPath.drop f.length)).any fun seg =>
                 dangerousPatterns.any fun d => containsSub seg d)
        || dangerousCombinationPatterns.any fun d => patternPath == f ++ d)
  || (("sdmc:/".data).isPrefixOf patternPath
      && (splitSegments (patternPath.drop 6)).any fun seg =>
           dangerousPatterns.any fun d => seg == d)
  || (match findSub patternPath ":/".data with
      | some i => (patternPath.take (i + 2)).contains '*'
      | none => false)
  || (dangerousPatterns.any fun d => containsSub patternPath d)

/-- Observable calls the dispatcher makes to its external collaborators
(filesystem, key-value config, binary patch, network, power control and
logging), one constructor per collaborator entry point used in
`interpretAndExecuteCommand`. -/
inductive Effect
  | createDirectory (path : Str)
  | copyFileOrDirectoryByPattern (src dst : Str)
  | copyFileOrDirectory (src dst : Str)
  | mirrorCopyFiles (src : Str) (dst : Option Str)
  | deleteFileOrDirectoryByPattern (src : Str)
  | deleteFileOrDirectory (src : Str)
  | mirrorDeleteFiles (src : Str) (dst : Option Str)
  | moveFilesOrDirectoriesByPattern (src dst : Str)
  | moveFileOrDirectory (src dst : Str)
  | setIniFileValue (path sect key value : Str)
  | setIniFileKey (path sect key newKey : Str)
  | hexEditByOffset (path offset hexData : Str)
  | hexEditByCustomOffset (path pat offset hexData : Str)
  | hexEditFindReplace (path findData replData : Str) (occurrence : Option Str)
  | downloadFile (url dst : Str)
  | unzipFile (src dst : Str)
  | logMessage (msg : Str)
  | splExit
  | fsdevUnmountAll
  | spsmShutdown (mode : Nat)

/-- Modelled from the spec: the pure string-valued collaborators consumed
by the dispatcher (`preprocessPath`/`preprocessUrl` from path_funcs.hpp,
`removeQuotes` from get_funcs.hpp, `replaceJsonSourcePlaceholder` from
json_funcs.hpp, and the three hex encoders from hex_funcs.hpp) are not
part of the provided sources, so they are abstracted as parameters of the
interpreter. -/
structure Env where
  preprocessPath : Str → Str
  preprocessUrl : Str → Str
  removeQuotes : Str → Str
  replaceJsonSourcePlaceholder : Str → Str → Str
  asciiToHex : Str → Str
  decimalToHex : Str → Str
  decimalToReversedHex : Str → Str

/-- Loop-carried scratch state of `interpretAndExecuteCommand` (utils.hpp
line 320).  The C++ function declares all its scratch strings once,
outside the command loop; `jsonPath`, `desiredValue` and `desiredNewKey`
are the ones read before being (re)assigned in a later iteration
(`jsonPath` deliberately, the other two via `+=`), so they form the
state.  The remaining scratch strings (`sourcePath`, `offset`, ...) are
assigned before every read in every branch and are modelled as per-branch
bindings. -/
structure IState where
  jsonPath : Str
  desiredValue : Str
  desiredNewKey : Str

/-- State at entry of `interpretAndExecuteCommand`: every scratch string
is default-constructed empty. -/
def initState : IState := ⟨[], [], []⟩

/-- The accumulation loops of the `set-ini-val` and `set-ini-key`
branches (utils.hpp lines 453-458 and 470-475): append each remaining
token to the existing buffer, with a single space after every token but
the last. -/
def appendJoin : Str → List Str → Str
  | acc, [] => acc
  | acc, [t] => acc ++ t
  | acc, t :: rest => appendJoin (acc ++ t ++ [' ']) rest

/-- Placeholder pass of the dispatcher (utils.hpp lines 338-355): when
`jsonPath` is non-empty, every token containing the `\x7bjson_data(`
marker is rewritten by `replaceJsonSourcePlaceholder`; otherwise the
command is used unmodified. -/
def resolveTokens (env : Env) (jsonPath : Str) (cmd : List Str) : List Str :=
  if jsonPath ≠ [] then
    cmd.map fun arg =>
      if containsSub arg "\x7bjson_data(".data then
        env.replaceJsonSourcePlaceholder arg jsonPath
      else arg
  else cmd

/-- Operand preparation of the `hex-by-string` branch (utils.hpp lines
519-531): encode both operands, then right-pad the shorter encoded
string with NUL characters until the lengths match. -/
def hexByStringOperands (enc : Str → Str) (rawFind rawRepl : Str) : Str × Str :=
  let hexDataToReplace := enc rawFind
  let hexDataReplacement := enc rawRepl
  if hexDataReplacement.length < hexDataToReplace.length then
    (hexDataToReplace,
     hexDataReplacement ++
       List.replicate (hexDataToReplace.length - hexDataReplacement.length) '\x00')
  else if hexDataToReplace.length < hexDataReplacement.length then
    (hexDataToReplace ++
       List.replicate (hexDataReplacement.length - hexDataToReplace.length) '\x00',
     hexDataReplacement)
  else (hexDataToReplace, hexDataReplacement)

/-- One iteration of the dispatcher loop (utils.hpp lines 322-600) on a
single command: the verb is token 0 of the unmodified command, the
operands come from the placeholder-resolved command, and the result is
the updated scratch state, the collaborator calls made, and whether a
terminal power command ran.  Modelled from the spec: `spsmShutdown`
(libnx power control, not part of the sources) does not return — "the
process does not resume" — so the `reboot`/`shutdown` branches report
termination. -/
def step (env : Env) (s : IState) (unmodifiedCommand : List Str) :
    IState × List Effect × Bool :=
  match unmodifiedCommand with
  | [] => (s, [], false)
  | verb0 :: _ =>
    let commandName := verb0
    let command := resolveTokens env s.jsonPath unmodifiedCommand
    if commandName = "json_data".data then
      if 2 ≤ command.length then
        ({ s with jsonPath := env.preprocessPath (command.getD 1 []) }, [], false)
      else (s, [], false)
    else if commandName = "make".data ∨ commandName = "mkdir".data then
      if 2 ≤ command.length then
        (s, [.createDirectory (env.preprocessPath (command.getD 1 []))], false)
      else (s, [], false)
    else if commandName = "copy".data ∨ commandName = "cp".data then
      if 3 ≤ command.length then
        let sourcePath := env.preprocessPath (command.getD 1 [])
        let destinationPath := env.preprocessPath (command.getD 2 [])
        if sourcePath.contains '*' then
          (s, [.copyFileOrDirectoryByPattern sourcePath destinationPath], false)
        else
          (s, [.copyFileOrDirectory sourcePath destinationPath], false)
      else (s, [], false)
    else if commandName = "mirror_copy".data ∨ commandName = "mirror_cp".data then
      if 2 ≤ command.length then
        let sourcePath := env.preprocessPath (command.getD 1 [])
        if 3 ≤ command.length then
          (s, [.mirrorCopyFiles sourcePath
                 (some (env.preprocessPath (command.getD 2 [])))], false)
        else (s, [.mirrorCopyFiles sourcePath none], false)
      else (s, [], false)
    else if commandName = "delete".data ∨ commandName = "del".data then
      if 2 ≤ command.length then
        let sourcePath := env.preprocessPath (command.getD 1 [])
        if !isDangerousCombination sourcePath then
          if sourcePath.contains '*' then
            (s, [.deleteFileOrDirectoryByPattern sourcePath], false)
          else (s, [.deleteFileOrDirectory sourcePath], false)
        else (s, [], false)
      else (s, [], false)
    else if commandName = "mirror_delete".data ∨ commandName = "mirror_del".data then
      if 2 ≤ command.length then
        let sourcePath := env.preprocessPath (command.getD 1 [])
        if 3 ≤ command.length then
          (s, [.mirrorDeleteFiles sourcePath
                 (some (env.preprocessPath (command.getD 2 [])))], false)
        else (s, [.mirrorDeleteFiles sourcePath none], false)
      else (s, [], false)
    else if commandName = "rename".data ∨ commandName = "move".data ∨
            commandName = "mv".data then
      if 3 ≤ command.length then
        let sourcePath := env.preprocessPath (command.getD 1 [])
        let destinationPath := env.preprocessPath (command.getD 2 [])
        if !isDangerousCombination sourcePath then
          if sourcePath.contains '*' then
            (s, [.moveFilesOrDirectoriesByPattern sourcePath destinationPath], false)
          else (s, [.moveFileOrDirectory sourcePath destinationPath], false)
        else (s, [], false)
      else (s, [], false)
    else if commandName = "set-ini-val".data ∨ commandName = "set-ini-value".data then
      if 5 ≤ command.length then
        let sourcePath := env.preprocessPath (command.getD 1 [])
        let desiredSection := env.removeQuotes (command.getD 2 [])
        let desiredKey := env.removeQuotes (command.getD 3 [])
        let newValue := appendJoin s.desiredValue (command.drop 4)
        ({ s with desiredValue := newValue },
         [.setIniFileValue sourcePath desiredSection desiredKey newValue], false)
      else (s, [], false)
    else if commandName = "set-ini-key".data then
      if 5 ≤ command.length then
        let sourcePath := env.preprocessPath (command.getD 1 [])
        let desiredSection := env.removeQuotes (command.getD 2 [])
        let desiredKey := env.removeQuotes (command.getD 3 [])
        let newKey := appendJoin s.desiredNewKey (command.drop 4)
        ({ s with desiredNewKey := newKey },
         [.setIniFileKey sourcePath desiredSection desiredKey newKey], false)
      else (s, [], false)
    else if commandName = "hex-by-offset".data then
      if 4 ≤ command.length then
        (s, [.hexEditByOffset (env.preprocessPath (command.getD 1 []))
               (env.removeQuotes (command.getD 2 []))
               (env.removeQuotes (command.getD 3 []))], false)
      else (s, [], false)
    else if commandName = "hex-by-custom-offset".data then
      if 5 ≤ command.length then
        (s, [.hexEditByCustomOffset (env.preprocessPath (command.getD 1 []))
               (env.removeQuotes (command.getD 2 []))
               (env.removeQuotes (command.getD 3 []))
               (env.removeQuotes (command.getD 4 []))], false)
      else (s, [], false)
    else if commandName = "hex-by-swap".data then
      if 4 ≤ command.length then
        let sourcePath := env.preprocessPath (command.getD 1 [])
        let hexDataToReplace := env.removeQuotes (command.getD 2 [])
        let hexDataReplacement := env.removeQuotes (command.getD 3 [])
        if 5 ≤ command.length then
          (s, [.hexEditFindReplace sourcePath hexDataToReplace hexDataReplacement
                 (some (env.removeQuotes (command.getD 4 [])))], false)
        else
          (s, [.hexEditFindReplace sourcePath hexDataToReplace hexDataReplacement
                 none], false)
      else (s, [], false)
    else if commandName = "hex-by-string".data then
      if 4 ≤ command.length then
        let sourcePath := env.preprocessPath (command.getD 1 [])
        let ops := hexByStringOperands env.asciiToHex
          (env.removeQuotes (command.getD 2 [])) (env.removeQuotes (command.getD 3 []))
        if 5 ≤ command.length then
          (s, [.hexEditFindReplace sourcePath ops.1 ops.2
                 (some (env.removeQuotes (command.getD 4 [])))], false)
        else
          (s, [.hexEditFindReplace sourcePath ops.1 ops.2 none], false)
      else (s, [], false)
    else if commandName = "hex-by-decimal".data then
      if 4 ≤ command.length then
        let sourcePath := env.preprocessPath (command.getD 1 [])
        let hexDataToReplace := env.decimalToHex (env.removeQuotes (command.getD 2 []))
        let hexDataReplacement := env.decimalToHex (env.removeQuotes (command.getD 3 []))
        if 5 ≤ command.length then
          (s, [.hexEditFindReplace sourcePath hexDataToReplace hexDataReplacement
                 (some (env.removeQuotes (command.getD 4 [])))], false)
        else
          (s, [.hexEditFindReplace sourcePath hexDataToReplace hexDataReplacement
                 none], false)
      else (s, [], false)
    else if commandName = "hex-by-rdecimal".data then
      if 4 ≤ command.length then
        let sourcePath := env.preprocessPath (command.getD 1 [])
        let hexDataToReplace :=
          env.decimalToReversedHex (env.removeQuotes (command.getD 2 []))
        let hexDataReplacement :=
          env.decimalToReversedHex (env.removeQuotes (command.getD 3 []))
        if 5 ≤ command.length then
          (s, [.hexEditFindReplace sourcePath hexDataToReplace hexDataReplacement
                 (some (env.removeQuotes (command.getD 4 [])))], false)
        else
          (s, [.hexEditFindReplace sourcePath hexDataToReplace hexDataReplacement
                 none], false)
      else (s, [], false)
    else if commandName = "download".data then
      if 3 ≤ command.length then
        let fileUrl := env.preprocessUrl (command.getD 1 [])
        let destinationPath := env.preprocessPath (command.getD 2 [])
        (s, [.logMessage ("fileUrl: ".data ++ fileUrl),
             .downloadFile fileUrl destinationPath], false)
      else (s, [], false)
    else if commandName = "unzip".data then
      if 3 ≤ command.length then
        (s, [.unzipFile (env.preprocessPath (command.getD 1 []))
               (env.preprocessPath (command.getD 2 []))], false)
      else (s, [], false)
    else if commandName = "reboot".data then
      (s, [.splExit, .fsdevUnmountAll, .spsmShutdown 1], true)
    else if commandName = "shutdown".data then
      (s, [.splExit, .fsdevUnmountAll, .spsmShutdown 0], true)
    else (s, [], false)

/-- `interpretAndExecuteCommand` of utils.hpp lines 319-601: run the
commands in list order, threading the scratch state and concatenating
the collaborator calls; stop after a terminal power command. -/
def interpretAndExecuteCommand (env : Env) :
    List (List Str) → IState → IState × List Effect
  | [], s => (s, [])
  | c :: rest, s =>
    match step env s c with
    | (s₁, es, true) => (s₁, es)
    | (s₁, es, false) =>
      let r := interpretAndExecuteCommand env rest s₁
      (r.1, es ++ r.2)

/-- Hexadecimal digit character for a value below 16. -/
def hexDigit (n : Nat) : Char :=
  if n < 10 then Char.ofNat ('0'.toNat + n) else Char.ofNat ('A'.toNat + (n - 10))

/-- Modelled from the spec: `asciiToHex` (hex_funcs.hpp, not part of the
provided sources) turns a literal operand into a "byte-hex string",
encoding each character as its two-digit hexadecimal byte value. -/
def asciiToHex (s : Str) : Str :=
  s.foldr (fun c acc => hexDigit (c.toNat / 16) :: hexDigit (c.toNat % 16) :: acc) []

/-- Trivial collaborator instantiation used for concrete runs: path and
quote normalization are the identity, placeholder substitution keeps the
argument, and the hex encoders are the spec-modelled `asciiToHex` and the
identity. -/
def idEnv : Env :=
  { preprocessPath := id, preprocessUrl := id, removeQuotes := id,
    replaceJsonSourcePlaceholder := fun a _ => a,
    asciiToHex := asciiToHex, decimalToHex := id, decimalToReversedHex := id }

/-- Minimum token count each recognized verb requires before its branch
of the dispatcher acts, read off the `command.size() >= n` guards of
utils.hpp (the `reboot`/`shutdown` branches only need the verb itself). -/
def minTokens (verb : Str) : Option Nat :=
  if verb = "json_data".data then some 2
  else if verb = "make".data ∨ verb = "mkdir".data then some 2
  else if verb = "copy".data ∨ verb = "cp".data then some 3
  else if verb = "mirror_copy".data ∨ verb = "mirror_cp".data then some 2
  else if verb = "delete".data ∨ verb = "del".data then some 2
  else if verb = "mirror_delete".data ∨ verb = "mirror_del".data then some 2
  else if verb = "rename".data ∨ verb = "move".data ∨ verb = "mv".data then some 3
  else if verb = "set-ini-val".data ∨ verb = "set-ini-value".data then some 5
  else if verb = "set-ini-key".data then some 5
  else if verb = "hex-by-offset".data then some 4
  else if verb = "hex-by-custom-offset".data then some 5
  else if verb = "hex-by-swap".data ∨ verb = "hex-by-string".data ∨
          verb = "hex-by-decimal".data ∨ verb = "hex-by-rdecimal".data then some 4
  else if verb = "download".data ∨ verb = "unzip".data then some 3
  else if verb = "reboot".data ∨ verb = "shutdown".data then some 1
  else none

/-- The verbs the dispatcher recognizes, in the order of its branches. -/
def recognizedVerbs : List Str :=
  ["json_data".data, "make".data, "mkdir".data, "copy".data, "cp".data,
   "mirror_copy".data, "mirror_cp".data, "delete".data, "del".data,
   "mirror_delete".data, "mirror_del".data, "rename".data, "move".data,
   "mv".data, "set-ini-val".data, "set-ini-value".data, "set-ini-key".data,
   "hex-by-offset".data, "hex-by-custom-offset".data, "hex-by-swap".data,
   "hex-by-string".data, "hex-by-decimal".data, "hex-by-rdecimal".data,
   "download".data, "unzip".data, "reboot".data, "shutdown".data]

lemma isPrefixOf_append_self (l s : Str) : l.isPrefixOf (l ++ s) = true := by
  induction l with
  | nil => simp
  | cons a t ih => simp [List.isPrefixOf, ih]

/-- C3: every path that extends an ultra-protected folder
(`sdmc:/Nintendo/` or `sdmc:/emuMMC/`) by an arbitrary suffix is flagged
dangerous by `isDangerousCombination`. -/
theorem ultra_protected_prefix_always_dangerous (s : Str) :
    isDangerousCombination ("sdmc:/Nintendo/".data ++ s) = true ∧
    isDangerousCombination ("sdmc:/emuMMC/".data ++ s) = true := by
  constructor <;>
    simp [isDangerousCombination, ultraProtectedFolders, isPrefixOf_append_self]

/-- C4: a wildcard placed directly at the protected root `sdmc:/switch/`
is flagged dangerous, while a wildcard one level below it
(`sdmc:/switch/sub/*`) is not. -/
theorem wildcard_at_protected_root_only :
    isDangerousCombination "sdmc:/switch/*".data = true ∧
    isDangerousCombination "sdmc:/switch/sub/*".data = false := by decide

/-- C9: any path containing `..` or `~` anywhere as a substring is
flagged dangerous by `isDangerousCombination`, via its catch-all check. -/
theorem dangerous_token_substring_always_dangerous (p : Str)
    (h : containsSub p "..".data = true ∨ containsSub p "~".data = true) :
    isDangerousCombination p = true := by
  rcases h with h | h <;> simp [isDangerousCombination, dangerousPatterns, h]

theorem dangerous_token_substring_witness :
    containsSub "fat32:/stuff/../x".data "..".data = true ∧
    isDangerousCombination "fat32:/stuff/../x".data = true :=
  ⟨by decide, dangerous_token_substring_always_dangerous _ (Or.inl (by decide))⟩

/-- C5 (amended): the two operands the `hex-by-string` branch hands to
the find/replace primitive always have equal length, the shorter encoded
operand being right-padded with NUL characters; encoding `AB` versus
`ABCD` pads the shorter hex string with 4 trailing NUL characters (the
encoding emits two hex digits per input character, and the padding
counts those characters, not decoded bytes). -/
theorem hex_by_string_equal_length_padding :
    (∀ (enc : Str → Str) (f r : Str),
        (hexByStringOperands enc f r).1.length =
          (hexByStringOperands enc f r).2.length) ∧
    hexByStringOperands asciiToHex "AB".data "ABCD".data =
      ("4142".data ++ List.replicate 4 '\x00', "41424344".data) := by
  constructor
  · intro enc f r
    simp only [hexByStringOperands]
    split_ifs with h1 h2 <;> simp <;> omega
  · decide

/-- C5 counterexample: the claim's count of "2 trailing null bytes" for
the `AB`/`ABCD` pair is wrong — the padded find operand is the encoding
of `AB` followed by 4 NUL characters, not by 2. -/
theorem hex_by_string_two_null_bytes_counterexample :
    (hexByStringOperands asciiToHex "AB".data "ABCD".data).1 ≠
      asciiToHex "AB".data ++ List.replicate 2 '\x00' ∧
    (hexByStringOperands asciiToHex "AB".data "ABCD".data).1 =
      asciiToHex "AB".data ++ List.replicate 4 '\x00' := by decide

lemma resolveTokens_length (env : Env) (jp : Str) (cmd : List Str) :
    (resolveTokens env jp cmd).length = cmd.length := by
  unfold resolveTokens
  split <;> simp

lemma run_cons_noop {env : Env} {s : IState} {c : List Str}
    (h : step env s c = (s, [], false)) (rest : List (List Str)) :
    interpretAndExecuteCommand env (c :: rest) s =
      interpretAndExecuteCommand env rest s := by
  simp [interpretAndExecuteCommand, h]

/-- C2 (amended): for the guarded destructive verbs — `delete`/`del` and
`rename`/`move`/`mv` — a command whose preprocessed source path is
flagged by `isDangerousCombination` performs no collaborator call,
leaves the scratch state unchanged, and the run continues with the rest
of the list; the `mirror_delete`/`mirror_del` branch carries no such
guard (see the counterexample). -/
theorem guarded_destructive_dangerous_is_noop (env : Env) (s : IState)
    (v : Str) (args : List Str) (rest : List (List Str))
    (hv : v = "delete".data ∨ v = "del".data ∨ v = "rename".data ∨
          v = "move".data ∨ v = "mv".data)
    (hd : isDangerousCombination
        (env.preprocessPath
          ((resolveTokens env s.jsonPath (v :: args)).getD 1 [])) = true) :
    step env s (v :: args) = (s, [], false) ∧
    interpretAndExecuteCommand env ((v :: args) :: rest) s =
      interpretAndExecuteCommand env rest s := by
  have hstep : step env s (v :: args) = (s, [], false) := by
    simp only [List.getD_eq_getElem?_getD] at hd
    rcases hv with rfl | rfl | rfl | rfl | rfl <;> simp [step, hd]
  exact ⟨hstep, run_cons_noop hstep rest⟩

theorem guarded_destructive_dangerous_is_noop_witness :
    isDangerousCombination
      (idEnv.preprocessPath
        ((resolveTokens idEnv initState.jsonPath
            ["delete".data, "sdmc:/Nintendo/x".data]).getD 1 [])) = true ∧
    step idEnv initState ["delete".data, "sdmc:/Nintendo/x".data] =
      (initState, [], false) ∧
    interpretAndExecuteCommand idEnv
        [["delete".data, "sdmc:/Nintendo/x".data]] initState =
      interpretAndExecuteCommand idEnv [] initState := by
  have h := guarded_destructive_dangerous_is_noop idEnv initState
    "delete".data ["sdmc:/Nintendo/x".data] [] (Or.inl rfl) (by decide)
  exact ⟨by decide, h.1, h.2⟩

/-- C2 counterexample: `mirror_delete` is a destructive verb, yet on the
dangerous (ultra-protected) source path `sdmc:/Nintendo/x` it still
invokes the `mirrorDeleteFiles` filesystem collaborator. -/
theorem mirror_delete_not_guarded :
    isDangerousCombination (idEnv.preprocessPath "sdmc:/Nintendo/x".data) = true ∧
    (interpretAndExecuteCommand idEnv
        [["mirror_delete".data, "sdmc:/Nintendo/x".data]] initState).2 =
      [Effect.mirrorDeleteFiles "sdmc:/Nintendo/x".data none] :=
  ⟨by decide, rfl⟩

/-- C7: a command with fewer tokens than its verb requires performs no
collaborator call (in particular no log diagnostic), leaves the scratch
state unchanged, and the remaining commands still run. -/
theorem under_arity_command_is_silent_noop (env : Env) (s : IState)
    (v : Str) (args : List Str) (rest : List (List Str)) (m : Nat)
    (hm : minTokens v = some m) (hlt : (v :: args).length < m) :
    step env s (v :: args) = (s, [], false) ∧
    interpretAndExecuteCommand env ((v :: args) :: rest) s =
      interpretAndExecuteCommand env rest s := by
  simp only [List.length_cons] at hlt
  have hno : ¬ (m ≤ (resolveTokens env s.jsonPath (v :: args)).length) := by
    rw [resolveTokens_length, List.length_cons]; omega
  have hstep : step env s (v :: args) = (s, [], false) := by
    unfold minTokens at hm
    by_cases e1 : v = "json_data".data
    · rw [if_pos e1] at hm
      injection hm with hm2; subst hm2; subst e1
      simp [step, hno]
    · rw [if_neg e1] at hm
      by_cases e2 : v = "make".data ∨ v = "mkdir".data
      · rw [if_pos e2] at hm
        injection hm with hm2; subst hm2
        rcases e2 with rfl | rfl <;>
          simp [step, hno]
      · rw [if_neg e2] at hm
        by_cases e3 : v = "copy".data ∨ v = "cp".data
        · rw [if_pos e3] at hm
          injection hm with hm2; subst hm2
          rcases e3 with rfl | rfl <;>
            simp [step, hno]
        · rw [if_neg e3] at hm
          by_cases e4 : v = "mirror_copy".data ∨ v = "mirror_cp".data
          · rw [if_pos e4] at hm
            injection hm with hm2; subst hm2
            rcases e4 with rfl | rfl <;>
              simp [step, hno]
          · rw [if_neg e4] at hm
            by_cases e5 : v = "delete".data ∨ v = "del".data
            · rw [if_pos e5] at hm
              injection hm with hm2; subst hm2
              rcases e5 with rfl | rfl <;>
                simp [step, hno]
            · rw [if_neg e5] at hm
              by_cases e6 : v = "mirror_delete".data ∨ v = "mirror_del".data
              · rw [if_pos e6] at hm
                injection hm with hm2; subst hm2
                rcases e6 with rfl | rfl <;>
                  simp [step, hno]
              · rw [if_neg e6] at hm
                by_cases e7 : v = "rename".data ∨ v = "move".data ∨ v = "mv".data
                · rw [if_pos e7] at hm
                  injection hm with hm2; subst hm2
                  rcases e7 with rfl | rfl | rfl <;>
                    simp [step, hno]
                · rw [if_neg e7] at hm
                  by_cases e8 : v = "set-ini-val".data ∨ v = "set-ini-value".data
                  · rw [if_pos e8] at hm
                    injection hm with hm2; subst hm2
                    rcases e8 with rfl | rfl <;>
                      simp [step, hno]
                  · rw [if_neg e8] at hm
                    by_cases e9 : v = "set-ini-key".data
                    · rw [if_pos e9] at hm
                      injection hm with hm2; subst hm2; subst e9
                      simp [step, hno]
                    · rw [if_neg e9] at hm
                      by_cases e10 : v = "hex-by-offset".data
                      · rw [if_pos e10] at hm
                        injection hm with hm2; subst hm2; subst e10
                        simp [step, hno]
                      · rw [if_neg e10] at hm
                        by_cases e11 : v = "hex-by-custom-offset".data
                        · rw [if_pos e11] at hm
                          injection hm with hm2; subst hm2; subst e11
                          simp [step, hno]
                        · rw [if_neg e11] at hm
                          by_cases e12 : v = "hex-by-swap".data ∨ v = "hex-by-string".data ∨
                              v = "hex-by-decimal".data ∨ v = "hex-by-rdecimal".data
                          · rw [if_pos e12] at hm
                            injection hm with hm2; subst hm2
                            rcases e12 with rfl | rfl | rfl | rfl <;>
                              simp [step, hno]
                          · rw [if_neg e12] at hm
                            by_cases e13 : v = "download".data ∨ v = "unzip".data
                            · rw [if_pos e13] at hm
                              injection hm with hm2; subst hm2
                              rcases e13 with rfl | rfl <;>
                                simp [step, hno]
                            · rw [if_neg e13] at hm
                              by_cases e14 : v = "reboot".data ∨ v = "shutdown".data
                              · rw [if_pos e14] at hm
                                injection hm with hm2; subst hm2
                                exact absurd hlt (by omega)
                              · rw [if_neg e14] at hm
                                exact Option.noConfusion hm
  exact ⟨hstep, run_cons_noop hstep rest⟩

theorem under_arity_witness :
    minTokens "copy".data = some 3 ∧
    (("copy".data : Str) :: ["/a".data]).length < 3 ∧
    step idEnv initState ["copy".data, "/a".data] = (initState, [], false) ∧
    interpretAndExecuteCommand idEnv
        (["copy".data, "/a".data] :: [["make".data, "x".data]]) initState =
      interpretAndExecuteCommand idEnv [["make".data, "x".data]] initState := by
  have h := under_arity_command_is_silent_noop idEnv initState "copy".data
    ["/a".data] [["make".data, "x".data]] 3 (by decide) (by decide)
  exact ⟨by decide, by decide, h.1, h.2⟩

/-- C10: a non-empty command whose verb is none of the recognized verbs
performs no collaborator call, leaves the scratch state (including the
active document path) unchanged, and the rest of the list still runs. -/
theorem unrecognized_verb_is_noop (env : Env) (s : IState) (v : Str)
    (args : List Str) (rest : List (List Str))
    (h : v ∉ recognizedVerbs) :
    step env s (v :: args) = (s, [], false) ∧
    interpretAndExecuteCommand env ((v :: args) :: rest) s =
      interpretAndExecuteCommand env rest s := by
  simp only [recognizedVerbs, List.mem_cons, List.mem_singleton, not_or] at h
  obtain ⟨h1, h2, h3, h4, h5, h6, h7, h8, h9, h10, h11, h12, h13, h14, h15,
    h16, h17, h18, h19, h20, h21, h22, h23, h24, h25, h26, h27⟩ := h
  have hstep : step env s (v :: args) = (s, [], false) := by
    simp [step, h1, h2, h3, h4, h5, h6, h7, h8, h9, h10, h11, h12, h13, h14,
      h15, h16, h17, h18, h19, h20, h21, h22, h23, h24, h25, h26, h27]
  exact ⟨hstep, run_cons_noop hstep rest⟩

theorem unrecognized_verb_witness :
    ("frobnicate".data : Str) ∉ recognizedVerbs ∧
    step idEnv initState ["frobnicate".data, "/a".data] = (initState, [], false) ∧
    interpretAndExecuteCommand idEnv
        (["frobnicate".data, "/a".data] :: [["make".data, "x".data]]) initState =
      interpretAndExecuteCommand idEnv [["make".data, "x".data]] initState := by
  have h := unrecognized_verb_is_noop idEnv initState "frobnicate".data
    ["/a".data] [["make".data, "x".data]] (by decide)
  exact ⟨by decide, h.1, h.2⟩

/-- C6: a `reboot` or `shutdown` command unmounts all storage and
transitions the power state (`splExit`, `fsdevUnmountAll`,
`spsmShutdown`), and no command placed after it in the list is ever
dispatched: the run of any list containing it equals the run truncated
right after the first such command. -/
theorem reboot_shutdown_terminal (env : Env) (s : IState) (v : Str)
    (args : List Str) (cs1 cs2 : List (List Str))
    (hv : v = "reboot".data ∨ v = "shutdown".data) :
    step env s (v :: args) =
      (s, [Effect.splExit, Effect.fsdevUnmountAll,
           Effect.spsmShutdown (if v = "reboot".data then 1 else 0)], true) ∧
    interpretAndExecuteCommand env (cs1 ++ (v :: args) :: cs2) s =
      interpretAndExecuteCommand env (cs1 ++ [v :: args]) s := by
  have hstep : ∀ t : IState, step env t (v :: args) =
      (t, [Effect.splExit, Effect.fsdevUnmountAll,
           Effect.spsmShutdown (if v = "reboot".data then 1 else 0)], true) := by
    rcases hv with rfl | rfl <;> intro t <;> simp [step]
  refine ⟨hstep s, ?_⟩
  induction cs1 generalizing s with
  | nil => simp [interpretAndExecuteCommand, hstep]
  | cons c t ih =>
    simp only [List.cons_append, interpretAndExecuteCommand]
    rcases hc : step env s c with ⟨s₁, es, halt⟩
    cases halt
    · simp [ih s₁]
    · simp

theorem reboot_shutdown_terminal_witness :
    step idEnv initState ["reboot".data] =
      (initState, [Effect.splExit, Effect.fsdevUnmountAll,
        Effect.spsmShutdown
          (if ("reboot".data : Str) = "reboot".data then 1 else 0)], true) ∧
    interpretAndExecuteCommand idEnv
        ([] ++ ["reboot".data] :: [["make".data, "x".data]]) initState =
      interpretAndExecuteCommand idEnv ([] ++ [["reboot".data]]) initState :=
  reboot_shutdown_terminal idEnv initState "reboot".data [] []
    [["make".data, "x".data]] (Or.inl rfl)

/-- C8: with the active document path unset (empty `jsonPath`) every
token reaches its operation unchanged, placeholder syntax included; with
it set, each token containing the `\x7bjson_data(` marker is rewritten by
the placeholder resolver before dispatch and every marker-free token
passes through unchanged (positions and count preserved). -/
theorem placeholder_resolution_per_token (env : Env) (jp : Str)
    (cmd : List Str) (i : Nat) (hi : i < cmd.length) :
    (jp = [] → resolveTokens env jp cmd = cmd) ∧
    (jp ≠ [] →
      (resolveTokens env jp cmd).length = cmd.length ∧
      (resolveTokens env jp cmd).getD i [] =
        (if containsSub (cmd.getD i []) "\x7bjson_data(".data then
          env.replaceJsonSourcePlaceholder (cmd.getD i []) jp
        else cmd.getD i [])) := by
  constructor
  · intro h
    simp [resolveTokens, h]
  · intro h
    refine ⟨resolveTokens_length env jp cmd, ?_⟩
    unfold resolveTokens
    rw [if_pos h]
    simp [List.getD_eq_getElem?_getD, List.getElem?_map,
      List.getElem?_eq_getElem hi]

/-- Concrete collaborator instantiation whose placeholder resolver
returns a fixed marker-expansion result, to observe substitution. -/
def markerEnv : Env :=
  { idEnv with replaceJsonSourcePlaceholder := fun _ _ => "R".data }

theorem placeholder_resolution_witness :
    (0 < ([ "x\x7bjson_data(a.b)\x7d-y".data, "plain".data ] : List Str).length) ∧
    resolveTokens markerEnv [] ["x\x7bjson_data(a.b)\x7d-y".data, "plain".data] =
      ["x\x7bjson_data(a.b)\x7d-y".data, "plain".data] ∧
    (resolveTokens markerEnv "doc.json".data
        ["x\x7bjson_data(a.b)\x7d-y".data, "plain".data]).getD 0 [] = "R".data ∧
    (resolveTokens markerEnv "doc.json".data
        ["x\x7bjson_data(a.b)\x7d-y".data, "plain".data]).getD 1 [] = "plain".data := by
  have h0 := placeholder_resolution_per_token markerEnv "doc.json".data
    ["x\x7bjson_data(a.b)\x7d-y".data, "plain".data] 0 (by decide)
  have h1 := placeholder_resolution_per_token markerEnv "doc.json".data
    ["x\x7bjson_data(a.b)\x7d-y".data, "plain".data] 1 (by decide)
  have h2 := placeholder_resolution_per_token markerEnv []
    ["x\x7bjson_data(a.b)\x7d-y".data, "plain".data] 0 (by decide)
  refine ⟨by decide, h2.1 rfl, ?_, ?_⟩
  · have := (h0.2 (by decide)).2
    rw [this, if_pos (by decide)]
    decide
  · have := (h1.2 (by decide)).2
    rw [this, if_neg (by decide)]
    decide

/-- C1 fails on the code: the `desiredValue` scratch string is declared
outside the command loop and never cleared, so the second `set-ini-val`
command of a list hands `setIniFileValue` the previous command's value
with its own tokens appended (`v1v2`), not just its own `tokens[4..]`
joined (`v2`). -/
theorem set_ini_val_value_accumulates :
    (interpretAndExecuteCommand idEnv
        [["set-ini-val".data, "a.ini".data, "sec".data, "key".data, "v1".data],
         ["set-ini-val".data, "b.ini".data, "sec".data, "key".data, "v2".data]]
        initState).2 =
      [Effect.setIniFileValue "a.ini".data "sec".data "key".data "v1".data,
       Effect.setIniFileValue "b.ini".data "sec".data "key".data "v1v2".data] ∧
    ("v1v2".data : Str) ≠ "v2".data :=
  ⟨rfl, by decide⟩

end Ultrahand
